import Mathlib

/-!
Verification development for the `unesco` repository (Python sources
`unesco_reader/uis.py`, `src/unesco_reader/uis.py`, `src/unesco_reader/api.py`).

The Python code is shallowly embedded: pandas DataFrames become lists of
records, pandas joins/groupbys become explicit list operations, Python
exceptions become `Except`, and the `functools.lru_cache` decorator becomes an
explicit cache state threaded through the functions.  The namespace `Legacy`
models the module `unesco_reader/uis.py`, the namespace `Uis` models
`src/unesco_reader/uis.py`, and `Api` models `src/unesco_reader/api.py`.
-/

/-- Python's `sep.join(xs)`: intercalate `sep` between the elements of `xs`. -/
def pyJoin (sep : String) : List String → String
  | [] => ""
  | [x] => x
  | x :: y :: xs => x ++ sep ++ pyJoin sep (y :: xs)

namespace Legacy

/-- One row of the long-format `{code}_METADATA.csv` member, with the column
names used by the source (`INDICATOR_ID`, `COUNTRY_ID`, `YEAR`, `TYPE`,
`METADATA`). -/
structure MetadataRow where
  INDICATOR_ID : String
  COUNTRY_ID : String
  YEAR : Int
  TYPE : String
  METADATA : String
deriving DecidableEq

/-- One row of the wide (pivoted) metadata table: the `(INDICATOR_ID,
COUNTRY_ID, YEAR)` index of `DataFrame.pivot`, plus the cell values, one per
`TYPE` value present for this index (an absent `TYPE` corresponds to a NaN
cell and is modelled by a missing association-list entry). -/
structure WideRow where
  INDICATOR_ID : String
  COUNTRY_ID : String
  YEAR : Int
  cells : List (String × String)
deriving DecidableEq

/-- Strict lexicographic comparison of char lists by code point, the order
pandas uses when sorting string group keys. -/
def listCharLt : List Char → List Char → Bool
  | [], [] => false
  | [], _ :: _ => true
  | _ :: _, [] => false
  | a :: as, b :: bs =>
    if a.toNat < b.toNat then true
    else if b.toNat < a.toNat then false
    else listCharLt as bs

/-- Non-strict lexicographic order on the `(INDICATOR_ID, COUNTRY_ID, YEAR)`
group keys, mirroring the sorted group keys produced by
`DataFrame.groupby` (whose default is `sort=True`). -/
def key3Le (a b : String × String × Int) : Bool :=
  if a.1 == b.1 then
    if a.2.1 == b.2.1 then decide (a.2.2 ≤ b.2.2)
    else listCharLt a.2.1.data b.2.1.data
  else listCharLt a.1.data b.1.data

/-- Predicate selecting the metadata rows of one `groupby(['INDICATOR_ID',
'COUNTRY_ID', 'YEAR', 'TYPE'])` group. -/
def matchKey4 (i c : String) (y : Int) (t : String) (r : MetadataRow) : Bool :=
  r.INDICATOR_ID == i && r.COUNTRY_ID == c && r.YEAR == y && r.TYPE == t

/-- The `' / '.join` aggregation applied to one group: all `METADATA` texts of
the rows with this `(INDICATOR_ID, COUNTRY_ID, YEAR, TYPE)` key, in original
row order (`groupby` is stable inside a group), joined with `" / "`. -/
def groupConcat (rows : List MetadataRow) (i c : String) (y : Int) (t : String) : String :=
  pyJoin " / " ((rows.filter (matchKey4 i c y t)).map (·.METADATA))

/-- The `TYPE` values present for one `(INDICATOR_ID, COUNTRY_ID, YEAR)` pivot
index, in first-seen order; these are the non-NaN cells of the pivoted row. -/
def typesIn (rows : List MetadataRow) (i c : String) (y : Int) : List String :=
  ((rows.filter (fun r => r.INDICATOR_ID == i && r.COUNTRY_ID == c && r.YEAR == y)).map
    (·.TYPE)).dedup

/-- The distinct `(INDICATOR_ID, COUNTRY_ID, YEAR)` pivot-index values, sorted
the way pandas sorts group keys (`groupby` defaults to `sort=True`). -/
def key3s (rows : List MetadataRow) : List (String × String × Int) :=
  List.insertionSort (fun a b => key3Le a b = true)
    ((rows.map (fun r => (r.INDICATOR_ID, r.COUNTRY_ID, r.YEAR))).dedup)

/-- One pivoted output row: the index triple plus one cell per `TYPE` present
for it, each cell holding the `" / "`-joined `METADATA` texts of its group. -/
def wideOf (rows : List MetadataRow) (k : String × String × Int) : WideRow :=
  ⟨k.1, k.2.1, k.2.2,
    (typesIn rows k.1 k.2.1 k.2.2).map (fun t => (t, groupConcat rows k.1 k.2.1 k.2.2 t))⟩

/-- Embedding of `format_metadata` (unesco_reader/uis.py): group the long
metadata table by `(INDICATOR_ID, COUNTRY_ID, YEAR, TYPE)`, join each group's
`METADATA` texts with `" / "`, then pivot `TYPE` into columns, producing one
row per distinct `(INDICATOR_ID, COUNTRY_ID, YEAR)`. -/
def format_metadata (rows : List MetadataRow) : List WideRow :=
  (key3s rows).map (wideOf rows)

/-- Accessor for one cell of the reshaped metadata table: the row with the
given `(INDICATOR_ID, COUNTRY_ID, YEAR)` index, projected at column `t`
(`none` when the row or the column is absent). -/
def cellOf (rows : List MetadataRow) (i c : String) (y : Int) (t : String) : Option String :=
  ((format_metadata rows).find?
      (fun w => w.INDICATOR_ID == i && w.COUNTRY_ID == c && w.YEAR == y)).bind
    (fun w => w.cells.lookup t)

/-- One row of the `{code}_DATA_NATIONAL.csv` member (the raw values table). -/
structure DataRow where
  INDICATOR_ID : String
  COUNTRY_ID : String
  YEAR : Int
  VALUE : String
deriving DecidableEq

/-- One row of the merged dataset produced by `transform_data`: the raw value
columns, the two display-name columns attached by `assign` plus `Series.map`
(`none` models the NaN a missing dictionary key produces), and the pivoted
metadata cells attached by the left merge (`none` models the all-NaN
metadata columns of an unmatched row). -/
structure MergedRow where
  INDICATOR_ID : String
  COUNTRY_ID : String
  YEAR : Int
  VALUE : String
  COUNTRY_NAME : Option String
  INDICATOR_NAME : Option String
  cells : Option (List (String × String))
deriving DecidableEq

/-- Modelled from the spec: `common.mapping_dict` (module `common.py` is not
among the analyzed sources).  Per the spec's LabelLookup contract it maps a
code to its display name, taking the first occurrence when a code is
duplicated; `List.lookup` returns exactly the first match. -/
def mapping_dict (table : List (String × String)) (code : String) : Option String :=
  table.lookup code

/-- Modelled from the spec: the unzipped archive handle consumed by
`transform_data`.  `common.read_csv` (not among the analyzed sources) resolves
the fixed member names `{code}_DATA_NATIONAL.csv`, `{code}_LABEL.csv`,
`{code}_COUNTRY.csv` and `{code}_METADATA.csv`; the four parsed tables are the
fields of this structure. -/
structure ZipFolder where
  data : List DataRow
  labels : List (String × String)
  countries : List (String × String)
  metadata : List MetadataRow

/-- Predicate for the left-merge key: the wide metadata row matching a raw
value row on `['INDICATOR_ID', 'COUNTRY_ID', 'YEAR']`. -/
def wmatches (r : DataRow) (w : WideRow) : Bool :=
  w.INDICATOR_ID == r.INDICATOR_ID && w.COUNTRY_ID == r.COUNTRY_ID && w.YEAR == r.YEAR

/-- Build one merged output row from a raw value row and the matched (or
absent) wide metadata cells. -/
def mergeRow (labels countries : List (String × String)) (r : DataRow)
    (w : Option (List (String × String))) : MergedRow :=
  ⟨r.INDICATOR_ID, r.COUNTRY_ID, r.YEAR, r.VALUE,
    mapping_dict countries r.COUNTRY_ID, mapping_dict labels r.INDICATOR_ID, w⟩

/-- Embedding of `transform_data` (unesco_reader/uis.py): attach
`COUNTRY_NAME` and `INDICATOR_NAME` via dictionary lookups (missing key ↦
NaN, i.e. `none`), then left-merge the pivoted metadata on `['INDICATOR_ID',
'COUNTRY_ID', 'YEAR']`.  The left merge is modelled faithfully: each raw row
yields one output row per matching metadata row, or a single row with `none`
cells when no metadata row matches. -/
def transform_data (folder : ZipFolder) : List MergedRow :=
  folder.data.flatMap (fun r =>
    if ((format_metadata folder.metadata).filter (wmatches r)).isEmpty then
      [mergeRow folder.labels folder.countries r none]
    else
      ((format_metadata folder.metadata).filter (wmatches r)).map
        (fun w => mergeRow folder.labels folder.countries r (some w.cells)))

/-- Concrete metadata table with two rows sharing the full key, with texts
"A" then "B" in that order. -/
def demoMetadataRows : List MetadataRow :=
  [⟨"IND1", "FRA", 2020, "NOTE", "A"⟩, ⟨"IND1", "FRA", 2020, "NOTE", "B"⟩]

/-- Concrete archive whose single raw value row matches no label lookup and
no metadata key. -/
def demoFolder : ZipFolder :=
  { data := [⟨"IND9", "ZZZ", 1999, "5"⟩],
    labels := [("IND1", "Literacy")],
    countries := [("FRA", "France")],
    metadata := demoMetadataRows }

/-- The merged row `transform_data` produces for `demoFolder`: both display
names and the metadata cells degrade to `none`. -/
def demoMergedRow : MergedRow := ⟨"IND9", "ZZZ", 1999, "5", none, none, none⟩

/-- One row of the static catalog `uis_datasets.csv` read by
`available_datasets` (the `DATASETS` module constant). -/
structure CatalogRow where
  dataset_name : String
  dataset_code : String
  dataset_category : String
deriving DecidableEq

/-- Modelled from the spec: the source-location template prefix
(`PATHS.BASE_URL` lives in `config.py`, which is not among the analyzed
sources); `available_datasets` assigns `link = BASE_URL + code + ".zip"`.
No claim depends on the concrete value. -/
def BASE_URL : String := "https://uis-archive/"

/-- Embedding of `map_dataset_name` (unesco_reader/uis.py): a dataset name
maps to the code of the first catalog row with that name; a code maps to
itself; anything else raises `ValueError("Dataset not found: ...")` — note
the message lists no alternatives. -/
def map_dataset_name (catalog : List CatalogRow) (name : String) : Except String String :=
  match catalog.find? (fun r => r.dataset_name == name) with
  | some r => Except.ok r.dataset_code
  | none =>
    if (catalog.map (fun r => r.dataset_code)).contains name then Except.ok name
    else Except.error ("Dataset not found: " ++ name)

/-- The collaborator boundary of the lazy facade: `common.unzip_folder`
(module `common.py`, not among the analyzed sources) fetches and unpacks the
archive at a URL. -/
structure OldEnv where
  unzip_folder : String → ZipFolder

/-- State of the legacy `UIS` facade object: the four identifying fields the
constructor sets, plus the private `__folder` and `__data` slots, both `None`
until `load_data` runs. -/
structure UIS where
  dataset_code : String
  dataset_name : String
  url : String
  dataset_category : String
  folder : Option ZipFolder
  data : Option (List MergedRow)

/-- Embedding of the legacy `UIS.__init__`: resolve the dataset, read name,
link and category from the catalog, and set `__folder`/`__data` to `None`.
No archive retrieval happens here — the constructor takes no `OldEnv`.
(The unreachable second error branch models the `IndexError` an empty
`.values[0]` selection would raise.) -/
def UIS.init (catalog : List CatalogRow) (dataset : String) : Except String UIS :=
  match map_dataset_name catalog dataset with
  | Except.error e => Except.error e
  | Except.ok code =>
    match catalog.find? (fun r => r.dataset_code == code) with
    | some row =>
      Except.ok ⟨code, row.dataset_name, BASE_URL ++ code ++ ".zip", row.dataset_category,
        none, none⟩
    | none => Except.error ("Dataset not found: " ++ dataset)

/-- Embedding of the legacy `UIS.load_data`: fetch and unzip the bound URL,
then run `transform_data`, storing both results on the object. -/
def UIS.load_data (u : UIS) (env : OldEnv) : UIS :=
  { u with folder := some (env.unzip_folder u.url),
           data := some (transform_data (env.unzip_folder u.url)) }

/-- Embedding of the legacy `UIS.get_data`: return the `__data` slot as-is
(`None` before `load_data` has run). -/
def UIS.get_data (u : UIS) : Option (List MergedRow) := u.data

end Legacy

namespace Uis

/-- One entry of the scraped dataset listing (`UISInfoScraper.get_links`
returns a list of dicts with keys `name`, `theme`, `latest_update`, `href`). -/
structure DatasetInfo where
  name : String
  theme : String
  latest_update : String
  href : String
deriving DecidableEq

/-- The module-level `CACHING` flag of `src/unesco_reader/uis.py`. -/
def CACHING : Bool := true

/-- The observable state of the two `@lru_cache` decorators and an
instrumentation counter per wrapped function.  `infoCache` is `fetch_info`'s
memo (keyed by the `refresh` argument), `dataCache` is `fetch_data`'s memo
(keyed by `(href, refresh)`), and `infoCalls` / `dataCalls` count how many
times the scraper / `get_zipfile` were actually invoked.  The LRU size bound
(128) is never reached in any scenario considered here and is not modelled. -/
structure FetchState (Data : Type) where
  infoCache : List (Bool × List DatasetInfo)
  dataCache : List ((String × Bool) × Data)
  infoCalls : Nat
  dataCalls : Nat
deriving DecidableEq

/-- The external collaborators: `UISInfoScraper.get_links` and `get_zipfile`
(module `read.py`, not among the analyzed sources), indexed by invocation
count so that successive remote reads may differ and retrieval failures can
be modelled. -/
structure Env (Data : Type) where
  links : Nat → List DatasetInfo
  zipfile : String → Nat → Except String Data

/-- Embedding of `fetch_info` under `@lru_cache`: a cached key returns the
stored value without running the body; otherwise the body runs — clearing
the whole memo when `refresh` (or caching is disabled) — the scraper is
invoked, and the wrapper stores the result under the key afterwards. -/
def fetch_info {Data : Type} (env : Env Data) (st : FetchState Data) (refresh : Bool) :
    List DatasetInfo × FetchState Data :=
  match st.infoCache.lookup refresh with
  | some v => (v, st)
  | none =>
    let st1 := if refresh || !CACHING then { st with infoCache := [] } else st
    let v := env.links st1.infoCalls
    (v, { st1 with infoCalls := st1.infoCalls + 1, infoCache := (refresh, v) :: st1.infoCache })

/-- The `ValueError` message of `fetch_dataset_info`: it names the missing
dataset and joins all valid dataset names with `", "`. -/
def notFoundMsg (dataset_name : String) (datasets : List DatasetInfo) : String :=
  "Dataset not found: " ++ dataset_name ++ ". \nPlease select from the following datasets: " ++
    pyJoin ", " (datasets.map (fun d => d.name))

/-- Embedding of `fetch_dataset_info`: scan the (cached) listing for the
first entry whose `name` equals the request, else raise the listing
`ValueError`. -/
def fetch_dataset_info {Data : Type} (env : Env Data) (st : FetchState Data)
    (dataset_name : String) (refresh : Bool) : Except String DatasetInfo × FetchState Data :=
  match (fetch_info env st refresh).1.find? (fun d => dataset_name == d.name) with
  | some d => (Except.ok d, (fetch_info env st refresh).2)
  | none =>
    (Except.error (notFoundMsg dataset_name (fetch_info env st refresh).1),
      (fetch_info env st refresh).2)

/-- Embedding of `fetch_data` under `@lru_cache`: a cached `(href, refresh)`
key returns the stored value without running the body; otherwise the body
runs — clearing the whole data memo when `refresh` — `get_zipfile` is
invoked (possibly failing), and on success the wrapper stores the result
under the key.  (The in-repo call sites only use `fetch_data(href)` and
`fetch_data(href, refresh=True)`, so the key is modelled as the pair.) -/
def fetch_data {Data : Type} (env : Env Data) (st : FetchState Data) (href : String)
    (refresh : Bool) : Except String Data × FetchState Data :=
  match st.dataCache.lookup (href, refresh) with
  | some v => (Except.ok v, st)
  | none =>
    let st1 := if refresh || !CACHING then { st with dataCache := [] } else st
    match env.zipfile href st.dataCalls with
    | Except.error e => (Except.error e, { st1 with dataCalls := st.dataCalls + 1 })
    | Except.ok v =>
      (Except.ok v,
        { st1 with
          dataCalls := st.dataCalls + 1
          dataCache := ((href, refresh), v) :: st1.dataCache })

/-- The bound state of the newer `UIS` facade: `_dataset_info` and `_data`. -/
structure UIS (Data : Type) where
  _dataset_info : DatasetInfo
  _data : Data
deriving DecidableEq

/-- Embedding of the newer `UIS.__init__`: fetch the dataset info and then
the data, both with `refresh=False`, inside the constructor. -/
def UIS.init {Data : Type} (env : Env Data) (st : FetchState Data) (dataset_name : String) :
    Except String (UIS Data) × FetchState Data :=
  let ri := fetch_dataset_info env st dataset_name false
  match ri.1 with
  | Except.error e => (Except.error e, ri.2)
  | Except.ok info =>
    let rd := fetch_data env ri.2 info.href false
    match rd.1 with
    | Except.error e => (Except.error e, rd.2)
    | Except.ok d => (Except.ok ⟨info, d⟩, rd.2)

/-- Embedding of the newer `UIS.refresh`: re-fetch the dataset info with
`refresh=True` and assign it to `self._dataset_info`, then re-fetch the data
with `refresh=True` and assign it to `self._data`.  The first component of
the result records a propagated exception (`some message`) and the second is
the object state observable afterwards: when the data fetch raises, the
info assignment has already happened. -/
def UIS.refresh {Data : Type} (u : UIS Data) (env : Env Data) (st : FetchState Data) :
    (Option String × UIS Data) × FetchState Data :=
  match (fetch_dataset_info env st u._dataset_info.name true).1 with
  | Except.error e => ((some e, u), (fetch_dataset_info env st u._dataset_info.name true).2)
  | Except.ok newInfo =>
    match (fetch_data env (fetch_dataset_info env st u._dataset_info.name true).2
        newInfo.href true).1 with
    | Except.error e =>
      ((some e, { u with _dataset_info := newInfo }),
        (fetch_data env (fetch_dataset_info env st u._dataset_info.name true).2
          newInfo.href true).2)
    | Except.ok d =>
      ((none, ⟨newInfo, d⟩),
        (fetch_data env (fetch_dataset_info env st u._dataset_info.name true).2
          newInfo.href true).2)

/-- A constant remote: one listing entry, and archive fetches that return the
running invocation count (so distinct retrievals are distinguishable). -/
def envN : Env Nat :=
  ⟨fun _ => [⟨"Education", "edu theme", "2024", "https://x/EDU.zip"⟩],
   fun _ n => Except.ok n⟩

/-- The empty starting state: both memos empty, no collaborator invoked yet. -/
def st0 : FetchState Nat := ⟨[], [], 0, 0⟩

/-- The scraped listing cached in the populated state below. -/
def L0 : List DatasetInfo := [⟨"Education", "edu theme", "2024", "https://x/EDU.zip"⟩]

/-- A populated state: the dataset-info listing is cached and two source
locations have cached data entries. -/
def stC : FetchState Nat := ⟨[(false, L0)], [(("h1", false), 10), (("h2", false), 20)], 1, 2⟩

/-- A remote whose listing changes between scrapes (the dataset moves from
`h1` to `h2`) and whose archive fetch succeeds only the first time. -/
def envFail : Env Nat :=
  ⟨fun n => if n == 0 then [⟨"Education", "t", "2024", "h1"⟩]
            else [⟨"Education", "t", "2025", "h2"⟩],
   fun _ n => if n == 0 then Except.ok 100 else Except.error "transfer failed"⟩

/-- The facade object `UIS.init envFail st0 "Education"` binds. -/
def u0 : UIS Nat := ⟨⟨"Education", "t", "2024", "h1"⟩, 100⟩

/-- The cache state after that construction. -/
def stAfterInit : FetchState Nat := (UIS.init envFail st0 "Education").2

/-- One row of the country-level data table held by `UISData`
(`country_data`), with the six fixed columns selected when
`include_metadata=False`; `meta` carries the remaining metadata columns. -/
structure CountryRow where
  country_id : String
  country_name : String
  indicator_id : String
  indicator_label : String
  year : Int
  value : String
  meta : List (String × String)
deriving DecidableEq

/-- One row of the region-to-country concordance (only the two columns
`get_country_data` reads). -/
structure RegionRow where
  region_id : String
  country_id : String
deriving DecidableEq

/-- Modelled from the spec: the `UISData` container built by `formatting.py`
(not among the analyzed sources).  Only the two fields `UIS.get_country_data`
reads are modelled; `region_concordance = none` models a dataset without a
region concordance, distinct from an empty one. -/
structure UISData where
  country_data : List CountryRow
  region_concordance : Option (List RegionRow)
deriving DecidableEq

/-- Embedding of the newer `UIS.get_country_data`: select the six fixed
columns unless `include_metadata`, then — only when a region filter is
requested — raise if the dataset has no region concordance, raise if the
region id is not among the concordance's region ids, and otherwise keep the
countries of that region. -/
def get_country_data (d : UISData) (include_metadata : Bool) (region : Option String) :
    Except String (List CountryRow) :=
  match region with
  | none =>
    Except.ok (if include_metadata then d.country_data
               else d.country_data.map (fun r => { r with meta := [] }))
  | some reg =>
    match d.region_concordance with
    | none => Except.error "Regional data is not available for this dataset."
    | some conc =>
      if (conc.map (fun c => c.region_id)).contains reg then
        Except.ok
          ((if include_metadata then d.country_data
            else d.country_data.map (fun r => { r with meta := [] })).filter
            (fun row =>
              ((conc.filter (fun c => c.region_id == reg)).map
                (fun c => c.country_id)).contains row.country_id))
      else Except.error ("Region ID not found: " ++ reg)

/-- A dataset with no region concordance at all. -/
def dNoConc : UISData := ⟨[], none⟩

/-- A dataset whose concordance knows only the region `AFR`. -/
def dConc : UISData := ⟨[], some [⟨"AFR", "KEN"⟩]⟩

end Uis

namespace Api

/-- Python truthiness of an optional integer: `None` and `0` are falsy. -/
def truthyInt : Option Int → Bool
  | none => false
  | some n => decide (n ≠ 0)

/-- The query parameters `get_data` assembles and hands to `_make_request`
(`end` is a Lean keyword, rendered `endYear`; a plain-string `indicator` or
`geo_unit` is already wrapped into a singleton list). -/
structure RequestParams where
  indicator : Option (List String)
  geoUnit : Option (List String)
  start : Option Int
  endYear : Option Int
  indicatorMetadata : Option String
  footnotes : Option String
  geoUnitType : Option String
  version : Option String
deriving DecidableEq

/-- Embedding of `_convert_bool_to_string` (api.py). -/
def _convert_bool_to_string : Option Bool → Option String
  | none => none
  | some true => some "true"
  | some false => some "false"

/-- Embedding of `get_data` (api.py) up to the point where it invokes
`_make_request`: `Except.ok params` means the validations passed and the
HTTP request is performed with `params`; `Except.error` is a `ValueError`
raised beforehand.  Note the inverted-years guard uses Python truthiness
(`if start and end and start > end`), so it is skipped when either year is
`0`. -/
def get_data (indicator geo_unit : Option (List String)) (start endYear : Option Int)
    (indicator_metadata footnotes : Bool) (geo_unit_type version : Option String) :
    Except String RequestParams :=
  if indicator.isNone && geo_unit.isNone then
    Except.error "At least one indicator or one geo_unit must be provided"
  else if geo_unit_type.isSome && !(geo_unit_type == some "NATIONAL") &&
      !(geo_unit_type == some "REGIONAL") then
    Except.error "geo_unit_type must be either NATIONAL or REGIONAL"
  else if truthyInt start && truthyInt endYear && decide (start.getD 0 > endYear.getD 0) then
    Except.error "Start year cannot be greater than end year"
  else
    Except.ok ⟨indicator, geo_unit, start, endYear,
      _convert_bool_to_string (some indicator_metadata),
      _convert_bool_to_string (some footnotes), geo_unit_type, version⟩

end Api

namespace Legacy

/-- The one-entry static catalog used by the concrete scenarios. -/
def demoCatalog : List CatalogRow := [⟨"Education", "EDU", "education"⟩]

/-- A collaborator always delivering the demo archive. -/
def demoOldEnv : OldEnv := ⟨fun _ => demoFolder⟩

/-- The object the legacy constructor builds for `"EDU"`. -/
def demoUIS : UIS :=
  ⟨"EDU", "Education", BASE_URL ++ "EDU" ++ ".zip", "education", none, none⟩

end Legacy

/-- In a list whose image under `key` has no duplicates, any predicate that is
satisfied only within a single key class selects at most one element. -/
theorem length_filter_le_one {α β : Type} (key : α → β) (p : α → Bool) (l : List α)
    (h : (l.map key).Nodup) (hp : ∀ a a', p a = true → p a' = true → key a = key a') :
    (l.filter p).length ≤ 1 := by
  induction l with
  | nil => simp
  | cons a l ih =>
    rw [List.map_cons, List.nodup_cons] at h
    by_cases hpa : p a = true
    · rw [List.filter_cons_of_pos hpa]
      have hnil : l.filter p = [] := by
        rw [List.filter_eq_nil_iff]
        intro b hb hpb
        exact h.1 (by rw [← hp b a hpb hpa]; exact List.mem_map_of_mem key hb)
      simp [hnil]
    · rw [List.filter_cons_of_neg (by simpa using hpa)]
      exact ih h.2

/-- A `flatMap` whose blocks all have length one preserves the list length. -/
theorem length_flatMap_of_one {α β : Type} (l : List α) (f : α → List β)
    (h : ∀ a ∈ l, (f a).length = 1) : (l.flatMap f).length = l.length := by
  induction l with
  | nil => simp
  | cons a l ih =>
    rw [List.flatMap_cons, List.length_append, h a (List.mem_cons_self a l),
      ih (fun b hb => h b (List.mem_cons_of_mem a hb))]
    simp [Nat.add_comm]

namespace Legacy

/-- The pivot index of `format_metadata` is duplicate-free: there is at most
one wide row per `(INDICATOR_ID, COUNTRY_ID, YEAR)`. -/
theorem format_metadata_keys_nodup (rows : List MetadataRow) :
    ((format_metadata rows).map (fun w => (w.INDICATOR_ID, w.COUNTRY_ID, w.YEAR))).Nodup := by
  unfold format_metadata
  rw [List.map_map]
  have hid : ((fun w : WideRow => (w.INDICATOR_ID, w.COUNTRY_ID, w.YEAR)) ∘ wideOf rows) =
      (fun k => k) := by
    funext k
    rfl
  rw [hid, List.map_id']
  exact ((List.perm_insertionSort _ _).nodup_iff).mpr (List.nodup_dedup _)

/-- Claim C1: `transform_data` preserves the row count of the raw values
table: the label attachment is row-wise and the left merge with the pivoted
metadata (whose `(INDICATOR_ID, COUNTRY_ID, YEAR)` keys are unique) neither
duplicates nor drops any row. -/
theorem transform_data_length (folder : ZipFolder) :
    (transform_data folder).length = folder.data.length := by
  unfold transform_data
  apply length_flatMap_of_one
  intro r _
  have hle : (((format_metadata folder.metadata).filter (wmatches r))).length ≤ 1 := by
    apply length_filter_le_one (fun w => (w.INDICATOR_ID, w.COUNTRY_ID, w.YEAR)) _ _
      (format_metadata_keys_nodup folder.metadata)
    intro a a' ha ha'
    simp only [wmatches, Bool.and_eq_true, beq_iff_eq] at ha ha'
    obtain ⟨⟨hi, hc⟩, hy⟩ := ha
    obtain ⟨⟨hi', hc'⟩, hy'⟩ := ha'
    simp [hi, hc, hy, hi', hc', hy']
  by_cases hms : ((format_metadata folder.metadata).filter (wmatches r)).isEmpty
  · simp [hms]
  · rw [if_neg hms, List.length_map]
    have hpos : 0 < ((format_metadata folder.metadata).filter (wmatches r)).length := by
      cases hh : ((format_metadata folder.metadata).filter (wmatches r)) with
      | nil => exact absurd (by simp [hh]) hms
      | cons x xs => simp [hh]
    omega

end Legacy

/-- On a mapped list, `find?` with a predicate that characterizes exactly the
image of `k` returns the image of the first occurrence of `k`. -/
theorem find?_map_key {K W : Type} (l : List K) (k : K) (mk : K → W) (p : W → Bool)
    (hk : k ∈ l) (hp : ∀ k' ∈ l, p (mk k') = true ↔ k' = k) :
    (l.map mk).find? p = some (mk k) := by
  induction l with
  | nil => cases hk
  | cons a l ih =>
    cases hpa : p (mk a) with
    | true =>
      have ha : a = k := (hp a (List.mem_cons_self a l)).mp hpa
      subst ha
      simp [List.find?_cons, hpa]
    | false =>
      have hak : a ≠ k := by
        intro h
        rw [(hp a (List.mem_cons_self a l)).mpr h] at hpa
        cases hpa
      have hkl : k ∈ l := by
        cases List.mem_cons.mp hk with
        | inl h => exact absurd h.symm hak
        | inr h => exact h
      rw [List.map_cons, List.find?_cons, hpa]
      exact ih hkl (fun k' hk' => hp k' (List.mem_cons_of_mem a hk'))

/-- Looking up `t` in the association list pairing each key with `g` of that
key returns `some (g t)` whenever `t` occurs among the keys. -/
theorem lookup_map_pair {K V : Type} [BEq K] [LawfulBEq K] (ts : List K) (g : K → V) (t : K)
    (ht : t ∈ ts) : (ts.map (fun u => (u, g u))).lookup t = some (g t) := by
  induction ts with
  | nil => cases ht
  | cons a ts ih =>
    by_cases h : t = a
    · simp [List.lookup, h]
    · have ht' : t ∈ ts := by
        cases List.mem_cons.mp ht with
        | inl hh => exact absurd hh h
        | inr hh => exact hh
      simpa [List.lookup, beq_false_of_ne h] using ih ht'

namespace Legacy

/-- Claim C2: in the reshaped metadata table, the cell at index
`(INDICATOR_ID, COUNTRY_ID, YEAR)` and column `TYPE` is the `" / "`-join of
the `METADATA` texts of all long-format rows carrying that four-part key, in
their original order (witnessed below by the "A" / "B" instance). -/
theorem format_metadata_cell_concat (rows : List MetadataRow) (i c : String) (y : Int)
    (t : String) (r : MetadataRow) (hr : r ∈ rows) (hi : r.INDICATOR_ID = i)
    (hc : r.COUNTRY_ID = c) (hy : r.YEAR = y) (ht : r.TYPE = t) :
    cellOf rows i c y t =
      some (pyJoin " / " ((rows.filter (matchKey4 i c y t)).map (·.METADATA))) := by
  have hkmem : (i, c, y) ∈ key3s rows := by
    unfold key3s
    refine ((List.perm_insertionSort _ _).mem_iff).mpr (List.mem_dedup.mpr ?_)
    exact List.mem_map.mpr ⟨r, hr, by simp [hi, hc, hy]⟩
  have hfind : ((key3s rows).map (wideOf rows)).find?
      (fun w => w.INDICATOR_ID == i && w.COUNTRY_ID == c && w.YEAR == y) =
      some (wideOf rows (i, c, y)) := by
    apply find?_map_key _ _ _ _ hkmem
    intro k' _
    constructor
    · intro h
      simp only [wideOf, Bool.and_eq_true, beq_iff_eq] at h
      obtain ⟨⟨h1, h2⟩, h3⟩ := h
      exact Prod.ext h1 (Prod.ext h2 h3)
    · intro h
      subst h
      simp [wideOf]
  have htmem : t ∈ typesIn rows i c y := by
    unfold typesIn
    refine List.mem_dedup.mpr ?_
    have hrf : r ∈ rows.filter
        (fun r => r.INDICATOR_ID == i && r.COUNTRY_ID == c && r.YEAR == y) :=
      List.mem_filter.mpr ⟨hr, by simp [hi, hc, hy]⟩
    exact List.mem_map.mpr ⟨r, hrf, by simp [ht]⟩
  unfold cellOf format_metadata
  rw [hfind]
  show (wideOf rows (i, c, y)).cells.lookup t = _
  unfold wideOf
  rw [lookup_map_pair _ _ _ htmem]
  rfl

/-- Witness for C2: on the two-row table the reshaped `NOTE` cell equals
"A / B" (order preserved, not sorted). -/
theorem format_metadata_cell_concat_witness :
    ((⟨"IND1", "FRA", 2020, "NOTE", "A"⟩ : MetadataRow) ∈ demoMetadataRows) ∧
    cellOf demoMetadataRows "IND1" "FRA" 2020 "NOTE" = some "A / B" :=
  ⟨by decide,
    (format_metadata_cell_concat demoMetadataRows "IND1" "FRA" 2020 "NOTE"
        ⟨"IND1", "FRA", 2020, "NOTE", "A"⟩ (by decide) rfl rfl rfl rfl).trans (by decide)⟩

/-- Claim C7: every merged row carries exactly the (possibly absent) lookup
results as its display names — a `COUNTRY_ID` or `INDICATOR_ID` missing from
the lookup tables yields a `none` (NaN) display name, never an error — and a
row with no matching reshaped-metadata key gets `none` metadata cells.  The
merge itself is total by construction (`transform_data` returns a plain
list, not an `Except`). -/
theorem transform_data_null_fields (folder : ZipFolder) (row : MergedRow)
    (hrow : row ∈ transform_data folder) :
    row.COUNTRY_NAME = mapping_dict folder.countries row.COUNTRY_ID ∧
    row.INDICATOR_NAME = mapping_dict folder.labels row.INDICATOR_ID ∧
    ((format_metadata folder.metadata).filter
        (fun w => w.INDICATOR_ID == row.INDICATOR_ID && w.COUNTRY_ID == row.COUNTRY_ID &&
          w.YEAR == row.YEAR) = [] → row.cells = none) := by
  unfold transform_data at hrow
  obtain ⟨r, hr, hmem⟩ := List.mem_flatMap.mp hrow
  by_cases hms : ((format_metadata folder.metadata).filter (wmatches r)).isEmpty
  · rw [if_pos hms] at hmem
    rw [List.mem_singleton.mp hmem]
    exact ⟨rfl, rfl, fun _ => rfl⟩
  · rw [if_neg hms] at hmem
    obtain ⟨w, hw, heq⟩ := List.mem_map.mp hmem
    subst heq
    refine ⟨rfl, rfl, fun hfil => ?_⟩
    exfalso
    obtain ⟨hwmd, hwp⟩ := List.mem_filter.mp hw
    unfold wmatches at hwp
    exact (List.filter_eq_nil_iff.mp hfil) w hwmd hwp

/-- Witness for C7 at the concrete archive with missing lookups. -/
theorem transform_data_null_fields_witness :
    demoMergedRow ∈ transform_data demoFolder ∧
    (demoMergedRow.COUNTRY_NAME = mapping_dict demoFolder.countries demoMergedRow.COUNTRY_ID ∧
     demoMergedRow.INDICATOR_NAME = mapping_dict demoFolder.labels demoMergedRow.INDICATOR_ID ∧
     ((format_metadata demoFolder.metadata).filter
        (fun w => w.INDICATOR_ID == demoMergedRow.INDICATOR_ID &&
          w.COUNTRY_ID == demoMergedRow.COUNTRY_ID &&
          w.YEAR == demoMergedRow.YEAR) = [] → demoMergedRow.cells = none)) :=
  ⟨by decide, transform_data_null_fields demoFolder demoMergedRow (by decide)⟩

end Legacy

namespace Uis

/-- Claim C3 (code bug): the first `fetch_data(href, refresh=True)` call from
the empty state performs a retrieval, but the wrapper memoizes the result
under the key `(href, True)`, so the second identical `refresh=True` call is
a pure cache hit: it performs no retrieval (`dataCalls` stays 1) and returns
the identical stored result and state — contradicting "every call with
refresh=True re-invokes the retrieval". -/
theorem fetch_data_refresh_memoized :
    (fetch_data envN st0 "https://x/EDU.zip" true).2.dataCalls = 1 ∧
    (fetch_data envN (fetch_data envN st0 "https://x/EDU.zip" true).2
        "https://x/EDU.zip" true).2.dataCalls = 1 ∧
    (fetch_data envN (fetch_data envN st0 "https://x/EDU.zip" true).2
        "https://x/EDU.zip" true).1 = (fetch_data envN st0 "https://x/EDU.zip" true).1 ∧
    (fetch_data envN (fetch_data envN st0 "https://x/EDU.zip" true).2
        "https://x/EDU.zip" true).2 = (fetch_data envN st0 "https://x/EDU.zip" true).2 :=
  ⟨rfl, rfl, rfl, rfl⟩

/-- Claim C10 counterexample: a `fetch_data(refresh=True)` call does not
evict the dataset-info listing — `fetch_info`'s memo is a different
`lru_cache`, its entry survives, and a subsequent listing access is served
from cache without re-invoking the scraper (`infoCalls` stays 1). -/
theorem fetch_data_refresh_info_cache_cex :
    (fetch_data envN stC "h1" true).2.infoCache = [(false, L0)] ∧
    (fetch_info envN (fetch_data envN stC "h1" true).2 false).1 = L0 ∧
    (fetch_info envN (fetch_data envN stC "h1" true).2 false).2.infoCalls = 1 :=
  ⟨rfl, rfl, rfl⟩

/-- Claim C10 (amended): a non-memoized `fetch_data(refresh=True)` call
clears only `fetch_data`'s own memo — every entry other than the one being
stored is evicted, while `fetch_info`'s memo and invocation count are
untouched. -/
theorem fetch_data_refresh_scope {Data : Type} (env : Env Data) (st : FetchState Data)
    (href h2 : String) (r2 : Bool) (h : st.dataCache.lookup (href, true) = none)
    (hne : ¬(h2 = href ∧ r2 = true)) :
    (fetch_data env st href true).2.infoCache = st.infoCache ∧
    (fetch_data env st href true).2.infoCalls = st.infoCalls ∧
    (fetch_data env st href true).2.dataCache.lookup (h2, r2) = none := by
  unfold fetch_data
  rw [h]
  cases hz : env.zipfile href st.dataCalls with
  | error e => exact ⟨rfl, rfl, rfl⟩
  | ok v =>
    refine ⟨rfl, rfl, ?_⟩
    show List.lookup (h2, r2) [((href, true), v)] = none
    have hbeq : ((h2, r2) == (href, true)) = false := by
      cases hb : ((h2, r2) == (href, true)) with
      | false => rfl
      | true =>
        have heq := eq_of_beq hb
        exact absurd ⟨congrArg Prod.fst heq, congrArg Prod.snd heq⟩ hne
    simp [List.lookup, hbeq]

/-- Witness for the amended C10 at the populated state: refreshing `h1`
leaves the listing cache and scraper count unchanged and evicts `h2`'s
entry. -/
theorem fetch_data_refresh_scope_witness :
    stC.dataCache.lookup ("h1", true) = none ∧
    ¬(("h2" : String) = "h1" ∧ (false : Bool) = true) ∧
    ((fetch_data envN stC "h1" true).2.infoCache = stC.infoCache ∧
     (fetch_data envN stC "h1" true).2.infoCalls = stC.infoCalls ∧
     (fetch_data envN stC "h1" true).2.dataCache.lookup ("h2", false) = none) :=
  ⟨by decide, by decide,
    fetch_data_refresh_scope envN stC "h1" "h2" false (by decide) (by decide)⟩

/-- Claim C9 counterexample: constructing the newer facade from the empty
state invokes both the scraper and the archive retrieval inside the
constructor — retrieval is eager, not deferred to first data access. -/
theorem uis_init_fetches_eagerly_cex :
    (UIS.init envN st0 "Education").2.dataCalls = 1 ∧
    (UIS.init envN st0 "Education").2.infoCalls = 1 ∧
    (UIS.init envN st0 "Education").1 =
      Except.ok ⟨⟨"Education", "edu theme", "2024", "https://x/EDU.zip"⟩, 0⟩ :=
  ⟨rfl, rfl, rfl⟩

/-- Claim C4 counterexample: `refresh()` is not all-or-nothing.  With
`envFail`, construction succeeds; during `refresh()` the info lookup
succeeds (returning the updated entry pointing at `h2`) and the subsequent
data fetch raises — the facade is left with the new `_dataset_info` but the
old `_data`, a mixed state different from its pre-refresh state. -/
theorem uis_refresh_not_atomic_cex :
    (UIS.init envFail st0 "Education").1 = Except.ok u0 ∧
    (u0.refresh envFail stAfterInit).1.1 = some "transfer failed" ∧
    (u0.refresh envFail stAfterInit).1.2 = ⟨⟨"Education", "t", "2025", "h2"⟩, 100⟩ ∧
    (u0.refresh envFail stAfterInit).1.2 ≠ u0 :=
  ⟨rfl, rfl, rfl, by decide⟩

/-- Claim C4 (amended): when `refresh()` raises, `_data` is always left
unchanged, and `_dataset_info` is either unchanged (the info lookup raised)
or already reassigned to the successfully fetched new info (the data fetch
raised) — the mixed state is possible, full atomicity is not guaranteed. -/
theorem uis_refresh_partial_state {Data : Type} (u : UIS Data) (env : Env Data)
    (st : FetchState Data) (e : String) (h : (u.refresh env st).1.1 = some e) :
    ((u.refresh env st).1.2)._data = u._data ∧
    (((u.refresh env st).1.2)._dataset_info = u._dataset_info ∨
      (fetch_dataset_info env st u._dataset_info.name true).1 =
        Except.ok ((u.refresh env st).1.2)._dataset_info) := by
  cases hfi : (fetch_dataset_info env st u._dataset_info.name true).1 with
  | error e1 =>
    simp [UIS.refresh, hfi]
  | ok newInfo =>
    cases hfd : (fetch_data env (fetch_dataset_info env st u._dataset_info.name true).2
        newInfo.href true).1 with
    | error e2 =>
      simp [UIS.refresh, hfi, hfd]
    | ok d =>
      simp only [UIS.refresh, hfi, hfd] at h
      cases h

/-- Witness for the amended C4 at the failing-refresh scenario. -/
theorem uis_refresh_partial_state_witness :
    (u0.refresh envFail stAfterInit).1.1 = some "transfer failed" ∧
    (((u0.refresh envFail stAfterInit).1.2)._data = u0._data ∧
     (((u0.refresh envFail stAfterInit).1.2)._dataset_info = u0._dataset_info ∨
       (fetch_dataset_info envFail stAfterInit u0._dataset_info.name true).1 =
         Except.ok ((u0.refresh envFail stAfterInit).1.2)._dataset_info)) :=
  ⟨rfl, uis_refresh_partial_state u0 envFail stAfterInit "transfer failed" rfl⟩

/-- Claim C6: filtering by a region id absent from the concordance raises the
"Region ID not found" `ValueError` (never a silently empty result), and a
dataset without a region concordance raises the "Regional data is not
available" `ValueError` instead. -/
theorem get_country_data_region_errors (d : UISData) (im : Bool) (reg : String) :
    (d.region_concordance = none →
      get_country_data d im (some reg) =
        Except.error "Regional data is not available for this dataset.") ∧
    (∀ conc, d.region_concordance = some conc →
      (conc.map (fun c => c.region_id)).contains reg = false →
      get_country_data d im (some reg) = Except.error ("Region ID not found: " ++ reg)) := by
  constructor
  · intro h
    simp [get_country_data, h]
  · intro conc h hc
    have hc' : ∀ x ∈ conc, ¬x.region_id = reg := by
      intro x hx hxe
      have hmem : reg ∈ conc.map (fun c => c.region_id) := List.mem_map.mpr ⟨x, hx, hxe⟩
      have hcc : (conc.map (fun c => c.region_id)).contains reg = true := by
        simpa using hmem
      rw [hcc] at hc
      cases hc
    simp [get_country_data, h, hc]
    exact hc'

/-- Witness for C6: the two error paths at concrete datasets and the unknown
region id `XYZ`. -/
theorem get_country_data_region_errors_witness :
    get_country_data dNoConc true (some "XYZ") =
      Except.error "Regional data is not available for this dataset." ∧
    get_country_data dConc true (some "XYZ") =
      Except.error ("Region ID not found: " ++ "XYZ") :=
  ⟨(get_country_data_region_errors dNoConc true "XYZ").1 rfl,
   (get_country_data_region_errors dConc true "XYZ").2 [⟨"AFR", "KEN"⟩] rfl (by decide)⟩

end Uis

namespace Api

/-- Claim C8 counterexample: with `start=1 > end=0` the truthiness guard is
skipped (`0` is falsy) and `get_data` proceeds to the HTTP request instead
of raising the validation error. -/
theorem get_data_zero_year_cex :
    get_data (some ["IND1"]) none (some 1) (some 0) false false none none =
      Except.ok ⟨some ["IND1"], none, some 1, some 0, some "false", some "false",
        none, none⟩ :=
  rfl

/-- Claim C8 (amended): whenever both years are provided, nonzero and
inverted (`start > end`), `get_data` raises a `ValueError` before reaching
`_make_request` — no HTTP call is made. -/
theorem get_data_rejects_inverted_years (ind gu : Option (List String)) (s e : Int)
    (im fn : Bool) (gut v : Option String) (hs : s ≠ 0) (he : e ≠ 0) (hgt : s > e) :
    (get_data ind gu (some s) (some e) im fn gut v).isOk = false := by
  have hcond : (truthyInt (some s) && truthyInt (some e) &&
      decide ((some s).getD 0 > (some e).getD 0)) = true := by
    simp [truthyInt, hs, he, Option.getD_some, hgt]
  unfold get_data
  split
  · rfl
  · split
    · rfl
    · rfl

/-- Witness for the amended C8: inverted nonzero years are rejected. -/
theorem get_data_rejects_inverted_years_witness :
    ((2021 : Int) ≠ 0 ∧ (2020 : Int) ≠ 0 ∧ (2021 : Int) > 2020) ∧
    (get_data (some ["IND1"]) none (some 2021) (some 2020) false false none none).isOk =
      false :=
  ⟨⟨by decide, by decide, by decide⟩,
    get_data_rejects_inverted_years (some ["IND1"]) none 2021 2020 false false none none
      (by decide) (by decide) (by decide)⟩

end Api

namespace Legacy

/-- Claim C9 (amended part): the legacy facade follows the bind-then-load
lifecycle — a successful `__init__` leaves `__folder` and `__data` as `None`
(the distinguishable not-yet-loaded state, also visible through `get_data`),
and only `load_data` performs the archive retrieval and stores the merged
dataset.  The constructor takes no collaborator at all, so it cannot fetch. -/
theorem uis_lazy_lifecycle (catalog : List CatalogRow) (name : String) (u : UIS)
    (env : OldEnv) (h : UIS.init catalog name = Except.ok u) :
    u.folder = none ∧ u.data = none ∧ u.get_data = none ∧
    (u.load_data env).data = some (transform_data (env.unzip_folder u.url)) ∧
    (u.load_data env).folder = some (env.unzip_folder u.url) := by
  unfold UIS.init at h
  split at h
  · cases h
  · split at h
    · injection h with h2
      subst h2
      exact ⟨rfl, rfl, rfl, rfl, rfl⟩
    · cases h

/-- Witness for the amended C9 at the concrete catalog. -/
theorem uis_lazy_lifecycle_witness :
    UIS.init demoCatalog "EDU" = Except.ok demoUIS ∧
    (demoUIS.folder = none ∧ demoUIS.data = none ∧ demoUIS.get_data = none ∧
     (demoUIS.load_data demoOldEnv).data =
       some (transform_data (demoOldEnv.unzip_folder demoUIS.url)) ∧
     (demoUIS.load_data demoOldEnv).folder = some (demoOldEnv.unzip_folder demoUIS.url)) :=
  ⟨rfl, uis_lazy_lifecycle demoCatalog "EDU" demoUIS demoOldEnv rfl⟩

end Legacy

/-- Every element of a joined list occurs verbatim (as a contiguous character
run) inside the join. -/
theorem mem_infix_pyJoin (sep : String) (l : List String) (a : String) (ha : a ∈ l) :
    a.data <:+: (pyJoin sep l).data := by
  induction l with
  | nil => cases ha
  | cons x xs ih =>
    cases xs with
    | nil =>
      have hax : a = x := by
        cases List.mem_cons.mp ha with
        | inl h => exact h
        | inr h => cases h
      subst hax
      exact List.infix_refl _
    | cons y ys =>
      cases List.mem_cons.mp ha with
      | inl h =>
        subst h
        show a.data <:+: (a ++ sep ++ pyJoin sep (y :: ys)).data
        rw [String.data_append, String.data_append, List.append_assoc]
        exact (List.prefix_append _ _).isInfix
      | inr h =>
        show a.data <:+: (x ++ sep ++ pyJoin sep (y :: ys)).data
        rw [String.data_append]
        exact (ih h).trans (List.suffix_append _ _).isInfix

/-- Claim C5 (amended): the two resolvers differ.  `fetch_dataset_info`'s
not-found `ValueError` message contains every valid dataset name verbatim
(so at least one alternative whenever the listing is non-empty), while
`map_dataset_name`'s not-found `ValueError` message is exactly
`"Dataset not found: <name>"`, listing no alternatives. -/
theorem resolve_error_messages :
    (∀ (Data : Type) (env : Uis.Env Data) (st : Uis.FetchState Data) (name : String)
      (refresh : Bool),
      (∀ d ∈ (Uis.fetch_info env st refresh).1, d.name ≠ name) →
      ((Uis.fetch_dataset_info env st name refresh).1 =
        Except.error (Uis.notFoundMsg name (Uis.fetch_info env st refresh).1) ∧
       ∀ d ∈ (Uis.fetch_info env st refresh).1,
         d.name.data <:+: (Uis.notFoundMsg name (Uis.fetch_info env st refresh).1).data)) ∧
    (∀ (catalog : List Legacy.CatalogRow) (name : String),
      (∀ r ∈ catalog, r.dataset_name ≠ name) →
      (∀ r ∈ catalog, r.dataset_code ≠ name) →
      Legacy.map_dataset_name catalog name = Except.error ("Dataset not found: " ++ name)) := by
  constructor
  · intro Data env st name refresh hmiss
    have hfind : (Uis.fetch_info env st refresh).1.find? (fun d => name == d.name) = none := by
      rw [List.find?_eq_none]
      intro d hd hbeq
      exact hmiss d hd (eq_of_beq hbeq).symm
    constructor
    · unfold Uis.fetch_dataset_info
      rw [hfind]
    · intro d hd
      unfold Uis.notFoundMsg
      rw [String.data_append]
      exact (mem_infix_pyJoin ", " _ _ (List.mem_map_of_mem _ hd)).trans
        (List.suffix_append _ _).isInfix
  · intro catalog name hname hcode
    unfold Legacy.map_dataset_name
    have hfind : catalog.find? (fun r => r.dataset_name == name) = none := by
      rw [List.find?_eq_none]
      intro r hr hbeq
      exact hname r hr (eq_of_beq hbeq)
    rw [hfind]
    have hcon : (catalog.map (fun r => r.dataset_code)).contains name = false := by
      cases hcc : (catalog.map (fun r => r.dataset_code)).contains name with
      | false => rfl
      | true =>
        have hmem : name ∈ catalog.map (fun r => r.dataset_code) := by simpa using hcc
        obtain ⟨r, hr, hre⟩ := List.mem_map.mp hmem
        exact absurd hre (hcode r hr)
    rw [hcon]
    simp

/-- Claim C5 counterexample: for the catalog whose only dataset is
`Education`/`EDU`, resolving the unknown name `XYZ` through
`map_dataset_name` produces the message `"Dataset not found: XYZ"`, which
contains neither the valid name nor the valid code — no alternative is
listed. -/
theorem map_dataset_name_no_alternatives_cex :
    Legacy.map_dataset_name Legacy.demoCatalog "XYZ" =
      Except.error "Dataset not found: XYZ" ∧
    ¬("Education".data <:+: "Dataset not found: XYZ".data) ∧
    ¬("EDU".data <:+: "Dataset not found: XYZ".data) :=
  ⟨rfl, by decide, by decide⟩

/-- Witness for the amended C5: the scraped-listing resolver's message does
contain the valid name `Education`; the legacy resolver's message is bare. -/
theorem resolve_error_messages_witness :
    ((Uis.fetch_dataset_info Uis.envN Uis.st0 "XYZ" false).1 =
      Except.error (Uis.notFoundMsg "XYZ" (Uis.fetch_info Uis.envN Uis.st0 false).1)) ∧
    ("Education".data <:+: (Uis.notFoundMsg "XYZ" (Uis.fetch_info Uis.envN Uis.st0 false).1).data) ∧
    Legacy.map_dataset_name Legacy.demoCatalog "XYZ" =
      Except.error ("Dataset not found: " ++ "XYZ") :=
  ⟨(resolve_error_messages.1 Nat Uis.envN Uis.st0 "XYZ" false (by decide)).1,
   (resolve_error_messages.1 Nat Uis.envN Uis.st0 "XYZ" false (by decide)).2
     ⟨"Education", "edu theme", "2024", "https://x/EDU.zip"⟩ (by decide),
   resolve_error_messages.2 Legacy.demoCatalog "XYZ" (by decide) (by decide)⟩
